import Mathlib

/-!
# MoveSmart KE backend — verification of spec claims

Shallow embedding of the parts of the MoveSmart KE Django backend that the
claims C1–C10 speak about:

* the role-based permission layer (`authentication/permissions.py`,
  `authentication/roles.py`, `incidents/views.py`);
* traffic-report listing (`traffic/views.py`);
* external-API fallback paths (`traffic/services/ai_service.py`,
  `traffic/services/tomtom_service.py`,
  `incidents/services/data_collector.py`);
* bounding-box and sampling-point arithmetic (`data_collector.py`,
  `tomtom_service.py`);
* the `tomtom_incident_id` upsert (`incidents/models.py`,
  `data_collector.py`);
* the Celery retry configuration of the collection tasks
  (`incidents/tasks.py`).

Python floats are modelled as exact rationals (`ℚ`); `math.cos ∘ math.radians`
is kept abstract as a function parameter `cosDeg : ℚ → ℚ`, since every use in
the source applies the same composite to the same latitude.  Machine `int`s
are `ℤ`/`Nat`.  Calls to external HTTP APIs are modelled by an `ApiCall`
outcome value: either a decoded response or a raised `requests` exception.
-/

namespace MoveSmart

/-! ## Role-based permissions (`authentication/roles.py`, `authentication/permissions.py`) -/

/-- The static role → permission-string map `ROLE_PERMISSIONS`
(`authentication/roles.py`, lines 16–41). -/
def ROLE_PERMISSIONS : List (String × List String) :=
  [ ("admin",
      ["admin:*",
       "incidents:read", "incidents:manage",
       "traffic:read",
       "reports:read", "reports:generate", "reports:export",
       "control:read", "control:write"]),
    ("traffic_analyst",
      ["traffic:read",
       "reports:read", "reports:generate"]),
    ("traffic_controller",
      ["traffic:read",
       "incidents:read", "incidents:manage",
       "control:read", "control:write",
       "reports:read"]),
    ("incident_manager",
      ["incidents:read", "incidents:manage",
       "reports:read"]),
    ("viewer",
      ["traffic:read", "reports:read", "incidents:read"]) ]

/-- `ROLE_PERMISSIONS.get(r, [])` — permissions of a single role name. -/
def rolePerms (r : String) : List String :=
  ((ROLE_PERMISSIONS.find? (fun kv => kv.1 == r)).map Prod.snd).getD []

/-- The effective permission set of a user: the union of `ROLE_PERMISSIONS`
over the user's group names (`permissions.py`, lines 43–46; the Python `set`
is modelled as a list used only through membership). -/
def effectivePerms (groups : List String) : List String :=
  (groups.map rolePerms).flatten

/-- Python `s.startswith(pre)`, modelled over the character list of the
string (Lean's built-in `String.startsWith` is byte-index based and does not
reduce in the kernel). -/
def pyStartsWith (s pre : String) : Bool :=
  pre.data.isPrefixOf s.data

/-- Python `s.endswith(suf)`. -/
def pyEndsWith (s suf : String) : Bool :=
  suf.data.isSuffixOf s.data

/-- Python `c in s` for a single character `c`. -/
def pyContainsChar (s : String) (c : Char) : Bool :=
  s.data.contains c

/-- A Django request user, as far as `RolePermission` inspects it:
an authentication flag and the list of group names. -/
structure UserModel where
  isAuthenticated : Bool
  groups : List String

/-- `view.REQUIRED_PERMISSIONS.get(action, [])` with the attribute-presence
check of `permissions.py` lines 24–27: `none` for the attribute means the view
does not define `REQUIRED_PERMISSIONS`; `none` for the action means
`getattr(view, 'action', None)` returned `None`. -/
def requiredFor (requiredPermissionsAttr : Option (List (String × List String)))
    (action : Option String) : List String :=
  match requiredPermissionsAttr, action with
  | some m, some a => ((m.find? (fun kv => kv.1 == a)).map Prod.snd).getD []
  | _, _ => []

/-- `needed.split(':', 1)[0] + ':'` — the text of `needed` up to and including
the first `':'` (`permissions.py`, line 54). -/
def neededCategory (needed : String) : String :=
  String.mk (needed.data.takeWhile (fun c => c ≠ ':')) ++ ":"

/-- `RolePermission.has_permission` (`authentication/permissions.py`,
lines 17–58): deny unauthenticated users; allow members of the `admin` group;
allow when nothing is required for the action; otherwise allow iff some
required permission is held directly or via a category wildcard. -/
def hasPermission (user : UserModel)
    (requiredPermissionsAttr : Option (List (String × List String)))
    (action : Option String) : Bool :=
  if !user.isAuthenticated then
    false
  else
    let required := requiredFor requiredPermissionsAttr action
    if user.groups.contains "admin" then
      true
    else if required.isEmpty then
      true
    else
      let userPerms := effectivePerms user.groups
      required.any fun needed =>
        userPerms.contains needed ||
        (pyContainsChar needed ':' &&
          userPerms.any fun p =>
            pyStartsWith p (neededCategory needed) && pyEndsWith p "*")

/-- `IncidentViewSet.REQUIRED_PERMISSIONS` (`incidents/views.py`,
lines 18–29). -/
def IncidentViewSet.REQUIRED_PERMISSIONS : List (String × List String) :=
  [ ("list", ["incidents:read"]),
    ("retrieve", ["incidents:read"]),
    ("create", ["incidents:manage"]),
    ("update", ["incidents:manage"]),
    ("partial_update", ["incidents:manage"]),
    ("destroy", ["incidents:manage"]),
    ("resolve", ["incidents:manage"]),
    ("active", ["incidents:read"]),
    ("statistics", ["incidents:read"]),
    ("live_incidents", ["traffic:read"]) ]

/-- The spec's description of the permission check, written from the spec's
words for claim C2: some required permission is a member of the user's
permission set, or it contains `':'` and some user permission starts with its
category prefix (the text up to and including the first `':'`) and ends
with `'*'`. -/
def specPermitted (userPerms required : List String) : Prop :=
  ∃ p ∈ required,
    p ∈ userPerms ∨
    (pyContainsChar p ':' = true ∧
      ∃ q ∈ userPerms,
        pyStartsWith q (neededCategory p) = true ∧ pyEndsWith q "*" = true)

/-! ## Theorems for C1, C2, C8 -/

/-- C8: for every authenticated user in the `admin` group,
`RolePermission.has_permission` returns `True` for every view and every
action, regardless of the view's `REQUIRED_PERMISSIONS` and of the user's
other groups: the admin check short-circuits before any permission lookup. -/
theorem admin_allows_all_actions (groups : List String)
    (attr : Option (List (String × List String))) (action : Option String)
    (hadmin : groups.contains "admin" = true) :
    hasPermission ⟨true, groups⟩ attr action = true := by
  have hmem : "admin" ∈ groups := by simpa using hadmin
  simp [hasPermission, hmem]

theorem admin_allows_all_actions_witness :
    (["admin", "viewer"].contains "admin" = true) ∧
    hasPermission ⟨true, ["admin", "viewer"]⟩
      (some IncidentViewSet.REQUIRED_PERMISSIONS) (some "create") = true :=
  ⟨by decide,
   admin_allows_all_actions ["admin", "viewer"]
     (some IncidentViewSet.REQUIRED_PERMISSIONS) (some "create") (by decide)⟩

/-- C1: an authenticated user who is not in the `admin` group and whose
effective permissions contain neither `incidents:manage` nor any
`incidents`-category permission ending in `*` is denied the `create` action
of `IncidentViewSet`: `has_permission` returns `False` (so DRF answers the
POST with HTTP 403). -/
theorem create_requires_incidents_manage (groups : List String)
    (hadmin : groups.contains "admin" = false)
    (hmanage : "incidents:manage" ∉ effectivePerms groups)
    (hwild : ∀ p ∈ effectivePerms groups,
      ¬ (pyStartsWith p "incidents:" = true ∧ pyEndsWith p "*" = true)) :
    hasPermission ⟨true, groups⟩ (some IncidentViewSet.REQUIRED_PERMISSIONS)
      (some "create") = false := by
  have hreq : requiredFor (some IncidentViewSet.REQUIRED_PERMISSIONS)
      (some "create") = ["incidents:manage"] := by decide
  have hcat : neededCategory "incidents:manage" = "incidents:" := by decide
  simp only [hasPermission, hreq, hadmin, hcat, Bool.not_true, Bool.false_eq_true,
    if_false, List.isEmpty_cons, List.any_cons, List.any_nil, Bool.or_false,
    Bool.or_eq_false_iff, Bool.and_eq_false_iff]
  refine ⟨?_, Or.inr ?_⟩
  · rw [Bool.eq_false_iff]
    intro hc
    exact hmanage (by simpa using hc)
  · rw [Bool.eq_false_iff]
    intro hc
    rcases List.any_eq_true.mp hc with ⟨p, hp, hpp⟩
    simp only [Bool.and_eq_true] at hpp
    exact hwild p hp hpp

theorem create_requires_incidents_manage_witness :
    (["viewer"].contains "admin" = false) ∧
    ("incidents:manage" ∉ effectivePerms ["viewer"]) ∧
    (∀ p ∈ effectivePerms ["viewer"],
      ¬ (pyStartsWith p "incidents:" = true ∧ pyEndsWith p "*" = true)) ∧
    hasPermission ⟨true, ["viewer"]⟩ (some IncidentViewSet.REQUIRED_PERMISSIONS)
      (some "create") = false :=
  ⟨by decide, by decide, by decide,
   create_requires_incidents_manage ["viewer"] (by decide) (by decide) (by decide)⟩

/-- C2: for an authenticated non-admin user, `has_permission` is exactly the
set-membership/prefix-match lookup described by the spec: with a non-empty
required list it returns `True` iff some required permission is held directly
or matched by a category wildcard permission of the user, and with an empty
required list it returns `True`. -/
theorem hasPermission_is_lookup (groups : List String)
    (attr : Option (List (String × List String))) (action : Option String)
    (hadmin : groups.contains "admin" = false) :
    (requiredFor attr action ≠ [] →
      (hasPermission ⟨true, groups⟩ attr action = true ↔
        specPermitted (effectivePerms groups) (requiredFor attr action)))
    ∧ (requiredFor attr action = [] →
        hasPermission ⟨true, groups⟩ attr action = true) := by
  constructor
  · intro hne
    cases hr : requiredFor attr action with
    | nil => exact absurd hr hne
    | cons a l =>
      simp only [hasPermission, hr, hadmin, Bool.not_true, Bool.false_eq_true,
        if_false, List.isEmpty_cons, specPermitted, List.any_eq_true,
        Bool.or_eq_true, Bool.and_eq_true, List.contains_iff_exists_mem_beq,
        beq_iff_eq]
      constructor
      · rintro ⟨p, hp, hcase⟩
        refine ⟨p, hp, ?_⟩
        rcases hcase with ⟨q, hq, rfl⟩ | ⟨h1, h2⟩
        · exact Or.inl hq
        · exact Or.inr ⟨h1, h2⟩
      · rintro ⟨p, hp, hcase⟩
        refine ⟨p, hp, ?_⟩
        rcases hcase with hmem | ⟨h1, h2⟩
        · exact Or.inl ⟨p, hmem, rfl⟩
        · exact Or.inr ⟨h1, h2⟩
  · intro hr
    simp [hasPermission, hr, hadmin]

theorem hasPermission_is_lookup_witness :
    (["viewer"].contains "admin" = false) ∧
    (requiredFor (some IncidentViewSet.REQUIRED_PERMISSIONS) (some "list") ≠ [] →
      (hasPermission ⟨true, ["viewer"]⟩ (some IncidentViewSet.REQUIRED_PERMISSIONS)
          (some "list") = true ↔
        specPermitted (effectivePerms ["viewer"])
          (requiredFor (some IncidentViewSet.REQUIRED_PERMISSIONS) (some "list")))) :=
  ⟨by decide,
   (hasPermission_is_lookup ["viewer"] (some IncidentViewSet.REQUIRED_PERMISSIONS)
     (some "list") (by decide)).1⟩

/-! ## Traffic report listing (`traffic/views.py`, `TrafficReportViewSet.list_reports`,
lines 34–82; `traffic/models.py`, `TrafficReport`) -/

/-- A stored `TrafficReport` row, restricted to the columns `list_reports`
touches: the owning user (`user` is a nullable foreign key), the filterable
columns and the `created_at` ordering key (timestamps as `Nat`). -/
structure TrafficReport where
  id : Nat
  user : Option Nat
  location : String
  reportType : String
  createdAt : Nat
deriving DecidableEq

/-- Django `location__icontains=loc`: case-insensitive substring match. -/
def icontains (s pat : String) : Bool :=
  decide ((pat.data.map Char.toLower) <:+: (s.data.map Char.toLower))

/-- The query parameters of `list_reports` after parsing: the two dates are
the parsed `datetime` values (the view answers 400 before touching the
queryset when parsing fails), `limit`/`offset` default to 20/0. -/
structure ReportQueryParams where
  location : Option String
  reportType : Option String
  dateFrom : Option Nat
  dateTo : Option Nat
  limit : Nat
  offset : Nat

/-- `TrafficReportViewSet.list_reports` (`traffic/views.py`, lines 34–82):
start from `TrafficReport.objects.all()`, apply the optional filters, order
by `-created_at` (stable descending sort), and slice
`[offset : offset + limit]`.  The requesting user is available on the request
but the queryset never refers to it. -/
def listReports (db : List TrafficReport) (_requester : Nat)
    (p : ReportQueryParams) : List TrafficReport :=
  let q0 := db
  let q1 := match p.location with
    | none => q0
    | some loc => q0.filter (fun r => icontains r.location loc)
  let q2 := match p.reportType with
    | none => q1
    | some t => q1.filter (fun r => r.reportType == t)
  let q3 := match p.dateFrom with
    | none => q2
    | some d => q2.filter (fun r => d ≤ r.createdAt)
  let q4 := match p.dateTo with
    | none => q3
    | some d => q3.filter (fun r => r.createdAt ≤ d)
  let ordered := q4.mergeSort (fun a b => decide (b.createdAt ≤ a.createdAt))
  (ordered.drop p.offset).take p.limit

/-- A database with a single report owned by user 2. -/
def exampleDb : List TrafficReport :=
  [⟨1, some 2, "Nairobi CBD", "traffic_summary", 100⟩]

/-- `GET /api/traffic/reports/list_reports/` with no query parameters. -/
def noFilters : ReportQueryParams :=
  ⟨none, none, none, none, 20, 0⟩

/-- C3 counterexample: the claim "listing traffic reports as user A returns
no report belonging to user B" is false at a concrete input: user 1 lists
reports with no filters and receives the report owned by user 2, because the
queryset `TrafficReport.objects.all()` is never filtered by `request.user`. -/
theorem listReports_shows_other_users_reports :
    (1 : Nat) ≠ 2 ∧
    ∃ r ∈ listReports exampleDb 1 noFilters, r.user = some 2 := by
  refine ⟨by decide, ⟨1, some 2, "Nairobi CBD", "traffic_summary", 100⟩, ?_, rfl⟩
  simp [listReports, exampleDb, noFilters, List.mergeSort_singleton]

/-- C3 amended: `list_reports` is not scoped to the requesting user — it
returns the same list, which may include reports belonging to other users,
to every requester; the result is independent of who asks. -/
theorem listReports_independent_of_requester (db : List TrafficReport)
    (p : ReportQueryParams) (userA userB : Nat) :
    listReports db userA p = listReports db userB p := rfl

/-! ## Bounding-box and sampling-point arithmetic
(`incidents/services/data_collector.py`, `traffic/services/tomtom_service.py`)

Python float arithmetic is modelled over `ℚ`; `math.cos(math.radians lat)`
is the abstract parameter `cosDeg` applied to `lat`, the same in every
duplicate of the formula. -/

/-- Python `round()`: banker's rounding — round half to even. -/
def pyRound (x : ℚ) : ℤ :=
  let f := ⌊x⌋
  let frac := x - f
  if frac < 1 / 2 then f
  else if frac > 1 / 2 then f + 1
  else if f % 2 = 0 then f else f + 1

/-- `LiveDataCollector._calculate_bbox` (`data_collector.py`, lines 404–422):
bounding box `(min_lon, min_lat, max_lon, max_lat)` from a `(lat, lon)`
center and a radius in kilometres. -/
def calculateBbox (cosDeg : ℚ → ℚ) (center : ℚ × ℚ) (radiusKm : ℚ) :
    ℚ × ℚ × ℚ × ℚ :=
  let lat := center.1
  let lon := center.2
  let latChange := radiusKm / 111.32
  let lonChange := radiusKm / (111.32 * |cosDeg lat|)
  (lon - lonChange, lat - latChange, lon + lonChange, lat + latChange)

/-- The bbox computed inline by `TomTomService.get_detailed_traffic_report`
(`tomtom_service.py`, lines 137–140), in the order it is formatted into the
`bbox` string. -/
def detailedReportBbox (cosDeg : ℚ → ℚ) (lat lon radiusKm : ℚ) :
    ℚ × ℚ × ℚ × ℚ :=
  let latChange := radiusKm / 111.32
  let lonChange := radiusKm / (111.32 * |cosDeg lat|)
  (lon - lonChange, lat - latChange, lon + lonChange, lat + latChange)

/-- The bbox computed inline by `TomTomService.get_city_traffic_summary`
(`tomtom_service.py`, lines 260–263). -/
def cityTrafficSummaryBbox (cosDeg : ℚ → ℚ) (lat lon radiusKm : ℚ) :
    ℚ × ℚ × ℚ × ℚ :=
  let latChange := radiusKm / 111.32
  let lonChange := radiusKm / (111.32 * |cosDeg lat|)
  (lon - lonChange, lat - latChange, lon + lonChange, lat + latChange)

/-- C5: the bounding-box arithmetic duplicated across the files is
equivalent: `_calculate_bbox` returns exactly the tuple
`(lon - r/(111.32·|cos lat|), lat - r/111.32, lon + r/(111.32·|cos lat|),
lat + r/111.32)`, and this equals the boxes computed inline by
`get_detailed_traffic_report` and `get_city_traffic_summary`. -/
theorem bbox_duplicates_agree (cosDeg : ℚ → ℚ) (lat lon radiusKm : ℚ) :
    calculateBbox cosDeg (lat, lon) radiusKm =
      (lon - radiusKm / (111.32 * |cosDeg lat|), lat - radiusKm / 111.32,
       lon + radiusKm / (111.32 * |cosDeg lat|), lat + radiusKm / 111.32)
    ∧ calculateBbox cosDeg (lat, lon) radiusKm
        = detailedReportBbox cosDeg lat lon radiusKm
    ∧ calculateBbox cosDeg (lat, lon) radiusKm
        = cityTrafficSummaryBbox cosDeg lat lon radiusKm :=
  ⟨rfl, rfl, rfl⟩

/-- `LiveDataCollector._generate_sampling_points` (`data_collector.py`,
lines 424–452): the center point followed by a
`grid_size × grid_size` grid with `grid_size = int(math.sqrt(num_points - 1))`
(`Nat.sqrt` models the float square root, exact for these magnitudes),
truncated to `num_points` by the final `points[:num_points]`. -/
def generateSamplingPoints (cosDeg : ℚ → ℚ) (center : ℚ × ℚ)
    (radiusKm : ℚ) (numPoints : Nat) : List (ℚ × ℚ) :=
  let lat := center.1
  let lon := center.2
  let gridSize := Nat.sqrt (numPoints - 1)
  let gridPoints :=
    (List.range gridSize).flatMap fun i =>
      (List.range gridSize).map fun j =>
        let latOffset :=
          ((i : ℚ) - (gridSize : ℚ) / 2) * (radiusKm * 0.8) / (gridSize : ℚ) / 111.32
        let lonOffset :=
          ((j : ℚ) - (gridSize : ℚ) / 2) * (radiusKm * 0.8) / (gridSize : ℚ)
            / (111.32 * |cosDeg lat|)
        (lat + latOffset, lon + lonOffset)
  ((lat, lon) :: gridPoints).take numPoints

/-- C9: for every requested count `n ≥ 1`, `_generate_sampling_points`
returns exactly `min (⌊√(n-1)⌋² + 1) n` points; in particular with the
default `num_points = 25` it returns 17 points, not 25. -/
theorem generateSamplingPoints_count (cosDeg : ℚ → ℚ) (center : ℚ × ℚ)
    (radiusKm : ℚ) :
    (∀ n : Nat, 1 ≤ n →
      (generateSamplingPoints cosDeg center radiusKm n).length
        = min (Nat.sqrt (n - 1) ^ 2 + 1) n)
    ∧ (generateSamplingPoints cosDeg center radiusKm 25).length = 17 := by
  have hlen : ∀ n : Nat,
      (generateSamplingPoints cosDeg center radiusKm n).length
        = min (Nat.sqrt (n - 1) ^ 2 + 1) n := by
    intro n
    simp only [generateSamplingPoints]
    rw [List.length_take, List.length_cons, List.length_flatMap]
    simp [Function.comp_def, pow_two]
    omega
  refine ⟨fun n _ => hlen n, ?_⟩
  rw [hlen 25]
  norm_num

theorem generateSamplingPoints_count_witness :
    (1 ≤ 25) ∧
    (generateSamplingPoints (fun _ => 1) (0, 0) 10 25).length
      = min (Nat.sqrt (25 - 1) ^ 2 + 1) 25 :=
  ⟨by decide,
   (generateSamplingPoints_count (fun _ => 1) (0, 0) 10).1 25 (by decide)⟩

/-! ## Traffic flow processing (`data_collector.py`,
`LiveDataCollector._process_traffic_flow_data`, lines 363–402) -/

/-- The `flowSegmentData` object of a TomTom flow response; absent keys are
`none` (Python `.get(key, default)` supplies the default). Numeric JSON
values are modelled as rationals. -/
structure FlowSegment where
  currentSpeed : Option ℚ
  freeFlowSpeed : Option ℚ
  currentTravelTime : Option ℚ
  freeFlowTravelTime : Option ℚ
  roadClosure : Option Bool
  confidence : Option ℚ

/-- A TomTom flow response: `{}` or a dict possibly holding
`flowSegmentData`; `none` models both `{}` and a missing key. -/
structure FlowData where
  flowSegmentData : Option FlowSegment

/-- `flow_data.get('flowSegmentData', {})` when the key is missing. -/
def emptyFlowSegment : FlowSegment :=
  ⟨none, none, none, none, none, none⟩

/-- `LiveDataCollector._get_time_of_day` (`data_collector.py`,
lines 454–465). -/
def getTimeOfDay (hour : Nat) : String :=
  if 6 ≤ hour ∧ hour < 12 then "morning"
  else if 12 ≤ hour ∧ hour < 17 then "afternoon"
  else if 17 ≤ hour ∧ hour < 21 then "evening"
  else "night"

/-- The parts of `django_timezone.now()` that `_process_traffic_flow_data`
reads: a timestamp, `now.hour`, `now.weekday()` and `now.strftime('%A')`. -/
structure NowInfo where
  ts : Nat
  hour : Nat
  weekday : Nat
  dayName : String

/-- The `TrafficFlowData` row created by `_process_traffic_flow_data`
(fields as passed to `TrafficFlowData.objects.create`). -/
structure TrafficFlowRecord where
  latitude : ℚ
  longitude : ℚ
  currentSpeed : ℚ
  freeFlowSpeed : ℚ
  currentTravelTime : ℚ
  freeFlowTravelTime : ℚ
  congestionRatio : ℚ
  delayFactor : ℚ
  roadClosure : Bool
  confidence : Option ℚ
  timestamp : Nat
  city : String
  timeOfDay : String
  dayOfWeek : String
  isWeekend : Bool
  rawApiData : FlowData

/-- `LiveDataCollector._process_traffic_flow_data` (`data_collector.py`,
lines 363–402): extract the flow segment with defaults, compute
`congestion_ratio` and `delay_factor` with their zero-denominator guards,
and build the `TrafficFlowData` row. -/
def processTrafficFlowData (flowData : FlowData) (lat lon : ℚ)
    (city : String) (now : NowInfo) : TrafficFlowRecord :=
  let flowSegment := flowData.flowSegmentData.getD emptyFlowSegment
  let currentSpeed := flowSegment.currentSpeed.getD 0
  let freeFlowSpeed := flowSegment.freeFlowSpeed.getD 0
  let currentTravelTime := flowSegment.currentTravelTime.getD 0
  let freeFlowTravelTime := flowSegment.freeFlowTravelTime.getD 0
  let congestionRatio :=
    if freeFlowSpeed > 0 then currentSpeed / freeFlowSpeed else 0
  let delayFactor :=
    if freeFlowTravelTime > 0 then currentTravelTime / freeFlowTravelTime else 1
  let timeOfDay := getTimeOfDay now.hour
  let dayOfWeek := now.dayName
  let isWeekend := decide (5 ≤ now.weekday)
  ⟨lat, lon, currentSpeed, freeFlowSpeed, currentTravelTime, freeFlowTravelTime,
   congestionRatio, delayFactor, flowSegment.roadClosure.getD false,
   flowSegment.confidence, now.ts, city, timeOfDay, dayOfWeek, isWeekend,
   flowData⟩

/-- C10: `_process_traffic_flow_data` never divides by zero: for every flow
payload, `congestion_ratio` is `current_speed/free_flow_speed` when
`free_flow_speed > 0` and `0` otherwise, and `delay_factor` is
`current_travel_time/free_flow_travel_time` when `free_flow_travel_time > 0`
and `1` otherwise. -/
theorem processTrafficFlowData_guards_division (flowData : FlowData)
    (lat lon : ℚ) (city : String) (now : NowInfo) :
    ((processTrafficFlowData flowData lat lon city now).congestionRatio =
      if (flowData.flowSegmentData.getD emptyFlowSegment).freeFlowSpeed.getD 0 > 0 then
        (flowData.flowSegmentData.getD emptyFlowSegment).currentSpeed.getD 0
          / (flowData.flowSegmentData.getD emptyFlowSegment).freeFlowSpeed.getD 0
      else 0)
    ∧ ((processTrafficFlowData flowData lat lon city now).delayFactor =
      if (flowData.flowSegmentData.getD emptyFlowSegment).freeFlowTravelTime.getD 0 > 0 then
        (flowData.flowSegmentData.getD emptyFlowSegment).currentTravelTime.getD 0
          / (flowData.flowSegmentData.getD emptyFlowSegment).freeFlowTravelTime.getD 0
      else 1) :=
  ⟨rfl, rfl⟩

/-! ## The `tomtom_incident_id` upsert (`incidents/models.py` line 80;
`data_collector.py`, `LiveDataCollector._process_incident_data`,
lines 334–359) -/

/-- The `defaults` dictionary passed to
`LiveIncidentData.objects.update_or_create` (`data_collector.py`,
lines 336–358); `raw_api_data` (the raw JSON blob) is folded into the other
fields.  Optional columns are `Option`, datetimes are timestamps. -/
structure LiveIncidentDefaults where
  latitude : ℚ
  longitude : ℚ
  locationDescription : String
  roadNumbers : List String
  incidentType : String
  iconCategory : String
  severityCode : String
  startTime : Option Nat
  endTime : Option Nat
  lastReportTime : Option Nat
  magnitudeOfDelay : String
  length : Option ℚ
  delay : Option ℤ
  probabilityOfOccurrence : Option ℚ
  numberOfReports : ℤ
  city : String
  timeOfDay : String
  dayOfWeek : String
  isWeekend : Bool
  isActive : Bool
deriving DecidableEq

/-- Replacing the fields of the row bearing `incidentId` (the update half of
`update_or_create`). -/
def replaceRow (incidentId : String) (defaults : LiveIncidentDefaults)
    (row : String × LiveIncidentDefaults) : String × LiveIncidentDefaults :=
  if row.1 == incidentId then (row.1, defaults) else row

/-- Django `LiveIncidentData.objects.update_or_create(tomtom_incident_id=id,
defaults=...)` over a table keyed by the unique `tomtom_incident_id` column
(`models.py` line 80): when a row with the id exists its fields are updated
and `created = False`; otherwise a new row is inserted and `created = True`. -/
def updateOrCreate (table : List (String × LiveIncidentDefaults))
    (incidentId : String) (defaults : LiveIncidentDefaults) :
    List (String × LiveIncidentDefaults) × Bool :=
  if (table.find? (fun row => row.1 == incidentId)).isSome then
    (table.map (replaceRow incidentId defaults), false)
  else
    (table ++ [(incidentId, defaults)], true)

theorem replaceRow_fst (incidentId : String) (d : LiveIncidentDefaults)
    (row : String × LiveIncidentDefaults) :
    (replaceRow incidentId d row).1 = row.1 := by
  unfold replaceRow
  split <;> rfl

theorem map_fst_replaceRow (t : List (String × LiveIncidentDefaults))
    (incidentId : String) (d : LiveIncidentDefaults) :
    (t.map (replaceRow incidentId d)).map Prod.fst = t.map Prod.fst := by
  rw [List.map_map]
  exact List.map_congr_left fun row _ => replaceRow_fst incidentId d row

theorem filter_replaceRow_length (t : List (String × LiveIncidentDefaults))
    (incidentId : String) (d : LiveIncidentDefaults) :
    ((t.map (replaceRow incidentId d)).filter
        (fun row => row.1 == incidentId)).length
      = (t.filter (fun row => row.1 == incidentId)).length := by
  induction t with
  | nil => rfl
  | cons head tail ih =>
    cases hh : head.1 == incidentId <;>
      simp [List.filter_cons, replaceRow_fst, hh, ih]

theorem find?_replaceRow (t : List (String × LiveIncidentDefaults))
    (incidentId : String) (d : LiveIncidentDefaults)
    (h : (t.find? (fun row => row.1 == incidentId)).isSome) :
    (t.map (replaceRow incidentId d)).find? (fun row => row.1 == incidentId)
      = some (incidentId, d) := by
  induction t with
  | nil => simp at h
  | cons head tail ih =>
    cases hh : head.1 == incidentId with
    | true =>
      have hk : head.1 = incidentId := by simpa using hh
      simp [List.find?_cons, replaceRow, hh, hk]
    | false =>
      have h' : (tail.find? (fun row => row.1 == incidentId)).isSome := by
        simpa [List.find?_cons, hh] using h
      simpa [List.find?_cons, replaceRow_fst, hh] using ih h'

theorem count_key_eq_one (t : List (String × LiveIncidentDefaults))
    (incidentId : String) (hnodup : (t.map Prod.fst).Nodup)
    (h : (t.find? (fun row => row.1 == incidentId)).isSome) :
    (t.filter (fun row => row.1 == incidentId)).length = 1 := by
  induction t with
  | nil => simp at h
  | cons head tail ih =>
    simp only [List.map_cons, List.nodup_cons] at hnodup
    cases hh : head.1 == incidentId with
    | true =>
      have hk : head.1 = incidentId := by simpa using hh
      have htail : (tail.filter (fun row => row.1 == incidentId)).length = 0 := by
        rw [List.length_eq_zero, List.filter_eq_nil_iff]
        intro row hrow
        have hne : row.1 ≠ head.1 := by
          intro he
          exact hnodup.1 (he ▸ List.mem_map_of_mem Prod.fst hrow)
        simp [hk ▸ hne]
      simp [List.filter_cons, hh, htail]
    | false =>
      have h' : (tail.find? (fun row => row.1 == incidentId)).isSome := by
        simpa [List.find?_cons, hh] using h
      simp [List.filter_cons, hh, ih hnodup.2 h']

/-- C6: at most one `LiveIncidentData` record exists per
`tomtom_incident_id`.  Processing two incident payloads bearing the same
TomTom id through `update_or_create` leaves a single record with that id:
the second call reports `created = False`, rewrites the existing record's
fields to the second payload's values, inserts nothing, and keeps the
column unique. -/
theorem tomtom_incident_id_upsert_unique
    (t0 : List (String × LiveIncidentDefaults)) (incidentId : String)
    (d1 d2 : LiveIncidentDefaults)
    (hnodup : (t0.map Prod.fst).Nodup) :
    ((updateOrCreate (updateOrCreate t0 incidentId d1).1 incidentId d2).2
        = false)
    ∧ (((updateOrCreate (updateOrCreate t0 incidentId d1).1 incidentId d2).1.filter
          (fun row => row.1 == incidentId)).length = 1)
    ∧ ((updateOrCreate (updateOrCreate t0 incidentId d1).1 incidentId d2).1.find?
          (fun row => row.1 == incidentId) = some (incidentId, d2))
    ∧ (((updateOrCreate (updateOrCreate t0 incidentId d1).1 incidentId d2).1.map
          Prod.fst).Nodup)
    ∧ ((updateOrCreate (updateOrCreate t0 incidentId d1).1 incidentId d2).1.length
          = (updateOrCreate t0 incidentId d1).1.length) := by
  by_cases h0 : (t0.find? (fun row => row.1 == incidentId)).isSome
  · -- the id is already present before the first call
    have ht1 : (updateOrCreate t0 incidentId d1).1
        = t0.map (replaceRow incidentId d1) := by
      unfold updateOrCreate
      rw [if_pos h0]
    have h1 : ((t0.map (replaceRow incidentId d1)).find?
        (fun row => row.1 == incidentId)).isSome := by
      rw [find?_replaceRow t0 incidentId d1 h0]
      rfl
    have ht2 : (updateOrCreate (updateOrCreate t0 incidentId d1).1 incidentId d2)
        = ((t0.map (replaceRow incidentId d1)).map (replaceRow incidentId d2),
            false) := by
      rw [ht1]
      unfold updateOrCreate
      rw [if_pos h1]
    refine ⟨by rw [ht2], ?_, ?_, ?_, ?_⟩
    · rw [ht2, filter_replaceRow_length, filter_replaceRow_length]
      exact count_key_eq_one t0 incidentId hnodup h0
    · rw [ht2]
      exact find?_replaceRow _ incidentId d2 h1
    · rw [ht2, map_fst_replaceRow, map_fst_replaceRow]
      exact hnodup
    · rw [ht2, ht1, List.length_map]
  · -- the id is absent: the first call inserts, the second updates
    have ht1 : (updateOrCreate t0 incidentId d1).1
        = t0 ++ [(incidentId, d1)] := by
      unfold updateOrCreate
      rw [if_neg h0]
    have hnone : t0.find? (fun row => row.1 == incidentId) = none := by
      cases hf : t0.find? (fun row => row.1 == incidentId) with
      | none => rfl
      | some row => exact absurd (by simp [hf]) h0
    have habsent : ∀ row ∈ t0, (row.1 == incidentId) = false := by
      intro row hrow
      have := List.find?_eq_none.mp hnone row hrow
      simpa using this
    have h1 : ((t0 ++ [(incidentId, d1)]).find?
        (fun row => row.1 == incidentId)).isSome := by
      rw [List.find?_isSome]
      exact ⟨(incidentId, d1), by simp, by simp⟩
    have ht2 : (updateOrCreate (updateOrCreate t0 incidentId d1).1 incidentId d2)
        = ((t0 ++ [(incidentId, d1)]).map (replaceRow incidentId d2), false) := by
      rw [ht1]
      unfold updateOrCreate
      rw [if_pos h1]
    have hcount0 : (t0.filter (fun row => row.1 == incidentId)).length = 0 := by
      rw [List.length_eq_zero, List.filter_eq_nil_iff]
      intro row hrow
      simp [habsent row hrow]
    refine ⟨by rw [ht2], ?_, ?_, ?_, ?_⟩
    · rw [ht2, filter_replaceRow_length, List.filter_append]
      simp [hcount0, List.length_eq_zero.mp hcount0]
    · rw [ht2]
      exact find?_replaceRow _ incidentId d2 h1
    · rw [ht2, map_fst_replaceRow, List.map_append]
      have hkey : incidentId ∉ t0.map Prod.fst := by
        intro hmem
        rcases List.mem_map.mp hmem with ⟨row, hrow, hfst⟩
        have := habsent row hrow
        simp [hfst] at this
      simp [List.nodup_append, hnodup, hkey]
    · rw [ht2, ht1, List.length_map]

/-- A first processed payload's `defaults` (fields in declaration order). -/
def exampleDefaults1 : LiveIncidentDefaults :=
  ⟨-1.2921, 36.8219, "Moi Avenue", ["A104"], "accident", "1", "2",
   some 1000, none, some 1010, "2", some 120, some 300, none, 3,
   "Nairobi", "morning", "Monday", false, true⟩

/-- A second payload for the same TomTom id, with changed fields. -/
def exampleDefaults2 : LiveIncidentDefaults :=
  ⟨-1.2921, 36.8219, "Moi Avenue", ["A104"], "accident", "1", "3",
   some 1000, some 1500, some 1400, "3", some 150, some 600, none, 5,
   "Nairobi", "afternoon", "Monday", false, false⟩

theorem tomtom_incident_id_upsert_unique_witness :
    ((([] : List (String × LiveIncidentDefaults)).map Prod.fst).Nodup) ∧
    ((updateOrCreate (updateOrCreate [] "tomtom-1" exampleDefaults1).1
        "tomtom-1" exampleDefaults2).2 = false)
    ∧ (((updateOrCreate (updateOrCreate [] "tomtom-1" exampleDefaults1).1
          "tomtom-1" exampleDefaults2).1.filter
          (fun row => row.1 == "tomtom-1")).length = 1) :=
  ⟨by simp,
   (tomtom_incident_id_upsert_unique [] "tomtom-1" exampleDefaults1
      exampleDefaults2 (by simp)).1,
   (tomtom_incident_id_upsert_unique [] "tomtom-1" exampleDefaults1
      exampleDefaults2 (by simp)).2.1⟩

/-! ## Celery retry configuration (`incidents/tasks.py`) -/

/-- The retry-relevant parameters of a `@shared_task` declaration together
with the `countdown` argument its body passes to `self.retry`. -/
structure SharedTaskConfig where
  maxRetries : Nat
  retryBackoff : Bool
  retryCountdownArg : Option Nat

/-- `@shared_task(bind=True, retry_backoff=True, max_retries=3)` on
`collect_all_cities_traffic_data` plus its `self.retry(exc=exc, countdown=60)`
(`incidents/tasks.py`, lines 11 and 46). -/
def collectAllCitiesTaskConfig : SharedTaskConfig :=
  ⟨3, true, some 60⟩

/-- The same decoration and retry call on `collect_city_traffic_data`
(`incidents/tasks.py`, lines 49 and 79). -/
def collectCityTaskConfig : SharedTaskConfig :=
  ⟨3, true, some 60⟩

/-- Modelled from the spec: the delay Celery schedules before a retry.  An
explicit `countdown` argument to `Task.retry` takes precedence over the
`retry_backoff` option (which only drives autoretries); without either the
default retry delay applies (180 s). -/
def retryDelay (cfg : SharedTaskConfig) (retryIndex : Nat) : Nat :=
  match cfg.retryCountdownArg with
  | some c => c
  | none => if cfg.retryBackoff then 2 ^ retryIndex else 180

/-- Modelled from the spec: Celery's bounded retry loop.  `fails k` says
whether the `k`-th execution of the task body raises.  With `n` retries still
allowed, a failing execution triggers `self.retry` and runs the body again;
when no retries remain the retry call re-raises and the task body is not run
again.  The result is the number of executions of the task body. -/
def retryLoop (fails : Nat → Bool) : Nat → Nat → Nat
  | 0, k => k + 1
  | n + 1, k => if fails k then retryLoop fails n (k + 1) else k + 1

/-- Number of executions of a task under its retry policy, starting from a
fresh delivery (`request.retries = 0`). -/
def taskAttempts (cfg : SharedTaskConfig) (fails : Nat → Bool) : Nat :=
  retryLoop fails cfg.maxRetries 0

theorem retryLoop_le (fails : Nat → Bool) :
    ∀ n k, retryLoop fails n k ≤ k + n + 1 := by
  intro n
  induction n with
  | zero => intro k; simp [retryLoop]
  | succ m ih =>
    intro k
    cases hf : fails k with
    | true =>
      have := ih (k + 1)
      simp only [retryLoop, hf, if_true]
      omega
    | false =>
      simp [retryLoop, hf]

/-- C7: each background collection task is retried at most 3 times after a
failure — the task body runs at most `max_retries + 1 = 4` times, and when
every execution fails it runs exactly 4 times and is then not retried
further — and the delay scheduled before every retry is the fixed
`countdown = 60` seconds. -/
theorem collection_tasks_retry_policy (fails : Nat → Bool) :
    (taskAttempts collectAllCitiesTaskConfig fails ≤ 4)
    ∧ (taskAttempts collectCityTaskConfig fails ≤ 4)
    ∧ (taskAttempts collectAllCitiesTaskConfig (fun _ => true) = 4)
    ∧ (taskAttempts collectCityTaskConfig (fun _ => true) = 4)
    ∧ (∀ i, retryDelay collectAllCitiesTaskConfig i = 60)
    ∧ (∀ i, retryDelay collectCityTaskConfig i = 60) :=
  ⟨retryLoop_le fails 3 0, retryLoop_le fails 3 0, rfl, rfl,
   fun _ => rfl, fun _ => rfl⟩

/-! ## External-API failure fallbacks (`tomtom_service.py`, `ai_service.py`,
`data_collector.py`) -/

/-- Outcome of one outbound HTTP request: a decoded response, or a raised
`requests` exception (connection error, timeout, `raise_for_status`, …). -/
inductive ApiCall (α : Type) where
  | ok (response : α)
  | exn

/-- `TomTomService.get_traffic_flow` (`tomtom_service.py`, lines 23–50):
the decoded JSON, or `{}` when `requests.RequestException` is raised. -/
def getTrafficFlow (call : ApiCall FlowData) : FlowData :=
  match call with
  | .ok d => d
  | .exn => ⟨none⟩

/-- `TomTomService.get_traffic_incidents` (`tomtom_service.py`,
lines 52–89): the decoded JSON, or `{}` on `RequestException` or a JSON
decode failure.  Incident payloads are abstract (`α`); `none` models a
response without the `incidents` key, `{}` included. -/
def getTrafficIncidents {α : Type} (call : ApiCall (Option (List α))) :
    Option (List α) :=
  match call with
  | .ok r => r
  | .exn => none

/-- `TomTomService._generate_ai_forecast` (`tomtom_service.py`,
lines 344–353). -/
def generateAiForecast (congestionLevel liveIncidents : ℤ) : String :=
  if congestionLevel > 75 ∨ liveIncidents > 10 then
    "Expect major delays. Consider alternative routes or travel times."
  else if congestionLevel > 50 ∨ liveIncidents > 5 then
    "Heavy traffic reported. Plan for extra travel time."
  else if congestionLevel > 25 then
    "Moderate traffic conditions. Minor delays possible."
  else
    "Traffic is flowing smoothly. Have a safe trip!"

/-- The simulated congestion/travel-time pair of
`get_city_traffic_summary`'s fallback branch (`tomtom_service.py`,
lines 296–320); `random.randint` is the oracle `randint`. -/
def simulatedCongestionTravel (hour : Nat) (randint : ℤ → ℤ → ℤ) : ℤ × ℤ :=
  if (7 ≤ hour ∧ hour ≤ 9) ∨ (17 ≤ hour ∧ hour ≤ 19) then
    (randint 65 85, randint 35 50)
  else if 12 ≤ hour ∧ hour ≤ 14 then
    (randint 45 65, randint 25 35)
  else if 22 ≤ hour ∨ hour ≤ 6 then
    (randint 10 25, randint 15 25)
  else
    (randint 30 50, randint 20 30)

/-- The dashboard payload returned by `get_city_traffic_summary`. -/
structure DashboardData where
  congestionLevel : ℤ
  avgTravelTime : ℤ
  liveIncidents : ℤ
  aiForecast : String
deriving DecidableEq

/-- `TomTomService.get_city_traffic_summary` (`tomtom_service.py`,
lines 245–342): compute the bbox, fetch flow and incidents, derive the
congestion level and travel time from the flow segment when present
(simulated values otherwise), count incidents when present (a random count
otherwise), and attach the forecast. -/
def getCityTrafficSummary {α : Type} (cosDeg : ℚ → ℚ) (cityCenter : ℚ × ℚ)
    (radiusKm : ℚ) (flowCall : ApiCall FlowData)
    (incidentsCall : ApiCall (Option (List α))) (hour : Nat)
    (randint : ℤ → ℤ → ℤ) : DashboardData :=
  let lat := cityCenter.1
  let lon := cityCenter.2
  let _bbox := cityTrafficSummaryBbox cosDeg lat lon radiusKm
  let flowData := getTrafficFlow flowCall
  let incidentsData := getTrafficIncidents incidentsCall
  let congestionTravel : ℤ × ℤ :=
    match flowData.flowSegmentData with
    | some segment =>
      let currentSpeed := segment.currentSpeed.getD 0
      let freeFlowSpeed := segment.freeFlowSpeed.getD 1
      let congestionLevel : ℤ :=
        if freeFlowSpeed > 0 then
          pyRound (max 0 ((1 - currentSpeed / freeFlowSpeed) * 100))
        else 0
      let avgTravelTime : ℤ :=
        if currentSpeed > 0 then pyRound ((10 / currentSpeed) * 60) else 99
      (congestionLevel, avgTravelTime)
    | none => simulatedCongestionTravel hour randint
  let liveIncidents : ℤ :=
    match incidentsData with
    | some incidents => (incidents.length : ℤ)
    | none => randint 1 8
  ⟨congestionTravel.1, congestionTravel.2, liveIncidents,
   generateAiForecast congestionTravel.1 liveIncidents⟩

/-- The decoded pieces of a chat-completion HTTP response that
`_generate_openai_analysis` reads: the status code and
`result['choices'][0]['message']['content']`. -/
structure HttpResponse where
  statusCode : Nat
  aiContent : String

/-- The analysis dictionary produced by the AI service: `analysis` and
`recommendations` always, `congestion_level`/`avg_speed` only on the mock
path. -/
structure AnalysisResult where
  analysis : String
  recommendations : String
  congestionLevel : Option ℤ
  avgSpeed : Option ℚ

/-- `AITrafficAnalyzer._generate_mock_analysis` (`ai_service.py`,
lines 142–245): deterministic analysis/recommendation strings from the flow
segment, the incident count and the current hour.  Incident payloads are
abstract (`α`) — only their count is read. -/
def generateMockAnalysis {α : Type} (trafficData : FlowData)
    (incidentsData : List α) (location : String) (hour : Nat) :
    AnalysisResult :=
  let extracted : ℚ × ℚ × ℤ :=
    match trafficData.flowSegmentData with
    | some segment =>
      let currentSpeed := segment.currentSpeed.getD 0
      let freeFlowSpeed := segment.freeFlowSpeed.getD 0
      let congestionLevel : ℤ :=
        if freeFlowSpeed > 0 then
          pyRound (max 0 ((1 - currentSpeed / freeFlowSpeed) * 100))
        else 0
      (currentSpeed, freeFlowSpeed, congestionLevel)
    | none => (0, 0, 0)
  let currentSpeed := extracted.1
  let freeFlowSpeed := extracted.2.1
  let congestionLevel := extracted.2.2
  let incidentCount := incidentsData.length
  let timePart : String :=
    if 7 ≤ hour ∧ hour ≤ 9 then
      s!"Morning rush hour traffic analysis for {location}."
    else if 17 ≤ hour ∧ hour ≤ 19 then
      s!"Evening rush hour traffic analysis for {location}."
    else if 12 ≤ hour ∧ hour ≤ 14 then
      s!"Midday traffic analysis for {location}."
    else
      s!"Off-peak traffic analysis for {location}."
  let congestionPart : String :=
    if congestionLevel > 75 then
      "Traffic is experiencing severe congestion with significantly reduced speeds."
    else if congestionLevel > 50 then
      "Moderate to heavy traffic congestion is currently affecting travel times."
    else if congestionLevel > 25 then
      "Light traffic congestion with minimal impact on travel times."
    else
      "Traffic is flowing smoothly with minimal congestion."
  let speedParts : List String :=
    if currentSpeed > 0 then
      [s!"Current average speed is {currentSpeed} km/h"] ++
      (if freeFlowSpeed > 0 then
        [s!"compared to free-flow speed of {freeFlowSpeed} km/h."]
      else [])
    else []
  let incidentPart : String :=
    if incidentCount > 5 then
      s!"High incident activity with {incidentCount} reported incidents affecting traffic flow."
    else if incidentCount > 2 then
      s!"Moderate incident activity with {incidentCount} reported incidents."
    else if incidentCount > 0 then
      s!"Low incident activity with {incidentCount} reported incident(s)."
    else
      "No major incidents reported in the area."
  let analysis :=
    String.intercalate " " ([timePart, congestionPart] ++ speedParts ++ [incidentPart])
  let baseRecs : List String :=
    if congestionLevel > 75 then
      ["Consider delaying non-essential trips if possible",
       "Use alternative routes to avoid heavily congested areas",
       "Allow extra time for planned journeys",
       "Consider using public transportation if available"]
    else if congestionLevel > 50 then
      ["Plan for additional travel time",
       "Consider alternative routes for time-sensitive trips",
       "Monitor real-time traffic updates"]
    else if congestionLevel > 25 then
      ["Minor delays possible, plan accordingly",
       "Good time for non-urgent travel"]
    else
      ["Excellent conditions for travel",
       "Optimal time for longer journeys"]
  let recsWithIncidents :=
    baseRecs ++
      (if incidentCount > 2 then
        ["Stay alert for incident-related delays and road closures"]
      else [])
  let recsAll :=
    recsWithIncidents ++
      (if (7 ≤ hour ∧ hour ≤ 9) ∨ (17 ≤ hour ∧ hour ≤ 19) then
        ["Rush hour periods - expect increased traffic volume"]
      else [])
  let recommendationText :=
    String.intercalate "\\n" (recsAll.map fun r => s!"• {r}")
  ⟨analysis, recommendationText, some congestionLevel, some currentSpeed⟩

/-- `AITrafficAnalyzer._generate_openai_analysis` (`ai_service.py`,
lines 247–319): POST to the chat-completion endpoint; on a 200 response
parse the content (`_parse_ai_response`, kept abstract as the
`parseAiResponse` argument — the claims only touch the failure paths);
on any other status code or any raised exception return the mock
analysis. -/
def generateOpenaiAnalysis {α : Type} (call : ApiCall HttpResponse)
    (parseAiResponse : String → AnalysisResult) (trafficData : FlowData)
    (incidentsData : List α) (location : String) (hour : Nat) :
    AnalysisResult :=
  match call with
  | .exn => generateMockAnalysis trafficData incidentsData location hour
  | .ok response =>
    if response.statusCode == 200 then
      parseAiResponse response.aiContent
    else
      generateMockAnalysis trafficData incidentsData location hour

/-- One entry of `LiveDataCollector.KENYAN_CITIES` (`data_collector.py`,
lines 23–49). -/
structure CityInfo where
  name : String
  center : ℚ × ℚ
  bboxRadius : ℚ

/-- `LiveDataCollector.KENYAN_CITIES` (`data_collector.py`, lines 23–49). -/
def KENYAN_CITIES : List (String × CityInfo) :=
  [ ("nairobi", ⟨"Nairobi", (-1.2921, 36.8219), 25⟩),
    ("mombasa", ⟨"Mombasa", (-4.0435, 39.6682), 20⟩),
    ("kisumu", ⟨"Kisumu", (-0.0917, 34.7680), 15⟩),
    ("nakuru", ⟨"Nakuru", (-0.3031, 36.0800), 15⟩),
    ("eldoret", ⟨"Eldoret", (0.5143, 35.2698), 15⟩) ]

/-- The statistics dictionary returned by `collect_incident_data`; the
`errors` key is absent (`none`) in the early empty-response return. -/
structure CollectStats where
  city : String
  status : String
  totalFound : Nat
  newRecords : Nat
  updatedRecords : Nat
  errorsCount : Option Nat
deriving DecidableEq

/-- `LiveDataCollector.collect_incident_data` (`data_collector.py`,
lines 93–170): raise `ValueError` on an unknown city; otherwise fetch
incidents (request exceptions already swallowed inside
`get_traffic_incidents`), return zero statistics when the response is empty,
and otherwise fold `_process_incident_data` — abstracted as
`processIncident`, returning the `created` flag or a per-incident error that
the loop catches and counts — over the payloads.  Database side effects
(`DataCollectionLog`) are omitted; the trailing `except ... raise` can
therefore only re-raise non-API errors. -/
def collectIncidentData {α : Type} (city : String)
    (incidentsCall : ApiCall (Option (List α)))
    (processIncident : α → Except String Bool) : Except String CollectStats :=
  if (KENYAN_CITIES.find? (fun kv => kv.1 == city)).isNone then
    Except.error s!"Unknown city: {city}"
  else
    let incidentsResponse := getTrafficIncidents incidentsCall
    match incidentsResponse with
    | none => Except.ok ⟨city, "completed", 0, 0, 0, none⟩
    | some incidents =>
      let counts := incidents.foldl
        (fun (acc : Nat × Nat × Nat) incidentData =>
          match processIncident incidentData with
          | .ok true => (acc.1 + 1, acc.2.1, acc.2.2)
          | .ok false => (acc.1, acc.2.1 + 1, acc.2.2)
          | .error _ => (acc.1, acc.2.1, acc.2.2 + 1))
        (0, 0, 0)
      Except.ok ⟨city, "completed", incidents.length, counts.1, counts.2.1,
        some counts.2.2⟩

/-- C4: external-API failures fall back to mock/heuristic data instead of
propagating: `_generate_openai_analysis` returns the mock analysis on a
raised request exception and on any non-200 response;
`get_city_traffic_summary` returns the simulated
congestion/travel-time/incident numbers when both TomTom calls fail; and
`collect_incident_data` returns its zero-statistics result normally on a
TomTom request error — no external-API exception escapes these public
operations. -/
theorem external_api_failures_fall_back {α β γ : Type}
    (parseAiResponse : String → AnalysisResult) (trafficData : FlowData)
    (incidentsData : List α) (location : String) (hour : Nat)
    (response : HttpResponse) (hstatus : response.statusCode ≠ 200)
    (cosDeg : ℚ → ℚ) (cityCenter : ℚ × ℚ) (radiusKm : ℚ) (summaryHour : Nat)
    (randint : ℤ → ℤ → ℤ) (city : String)
    (processIncident : γ → Except String Bool)
    (hcity : (KENYAN_CITIES.find? (fun kv => kv.1 == city)).isSome) :
    (generateOpenaiAnalysis ApiCall.exn parseAiResponse trafficData
        incidentsData location hour
      = generateMockAnalysis trafficData incidentsData location hour)
    ∧ (generateOpenaiAnalysis (ApiCall.ok response) parseAiResponse
        trafficData incidentsData location hour
      = generateMockAnalysis trafficData incidentsData location hour)
    ∧ (getCityTrafficSummary (α := β) cosDeg cityCenter radiusKm ApiCall.exn
        ApiCall.exn summaryHour randint
      = ⟨(simulatedCongestionTravel summaryHour randint).1,
         (simulatedCongestionTravel summaryHour randint).2,
         randint 1 8,
         generateAiForecast (simulatedCongestionTravel summaryHour randint).1
           (randint 1 8)⟩)
    ∧ (collectIncidentData city (ApiCall.exn : ApiCall (Option (List γ)))
        processIncident
      = Except.ok ⟨city, "completed", 0, 0, 0, none⟩) := by
  refine ⟨rfl, ?_, rfl, ?_⟩
  · have hbeq : (response.statusCode == 200) = false := by
      simpa using hstatus
    simp [generateOpenaiAnalysis, hbeq]
  · rcases Option.isSome_iff_exists.mp hcity with ⟨v, hv⟩
    simp [collectIncidentData, hv, getTrafficIncidents]

theorem external_api_failures_fall_back_witness :
    ((⟨500, ""⟩ : HttpResponse).statusCode ≠ 200) ∧
    ((KENYAN_CITIES.find? (fun kv => kv.1 == "nairobi")).isSome) ∧
    (collectIncidentData "nairobi" (ApiCall.exn : ApiCall (Option (List Nat)))
        (fun _ => Except.ok true)
      = Except.ok ⟨"nairobi", "completed", 0, 0, 0, none⟩) :=
  ⟨by decide, by decide,
   (external_api_failures_fall_back (β := Nat)
      (fun _ => ⟨"", "", none, none⟩) ⟨none⟩ ([] : List Nat) "Nairobi" 0
      ⟨500, ""⟩ (by decide) (fun _ => 1) (0, 0) 10 0 (fun a _ => a)
      "nairobi" (fun _ => Except.ok true) (by decide)).2.2.2⟩

end MoveSmart
